import Mathlib

/-
Verification of the MarkLogic management-API connection core
(`python_api/marklogic/connection.py`) against its natural-language
specification.

The embedding models:
  * the `Connection` object (Endpoint) and its `uri` builder;
  * the request dispatchers `head`/`get`/`post`/`put`/`delete` as pure
    request-descriptor builders plus an explicit state transition for the
    `self.response` attribute they assign;
  * the response classifier `_response` (status-code policy plus the
    202 restart handling);
  * the restart reconciler `wait_for_restart` as a function of the list of
    poll outcomes supplied by the transport environment, instrumented with
    the number of poll attempts and `time.sleep(4)` calls performed.

External collaborators (the `requests` HTTP stack, `json.loads`) are
modelled at the boundary: each network call's outcome is an explicit input,
and `json.loads` is modelled by a small executable JSON parser over the
fragment of JSON the code manipulates (objects, arrays, strings, integer
numerals, booleans, null; string escapes limited to the common
single-character ones).
-/

/-- Python values produced by `json.loads`: null, booleans, (integer)
numbers, strings, lists and string-keyed dicts. -/
inductive JValue where
  | null
  | bool (b : Bool)
  | num (n : Int)
  | str (s : String)
  | arr (elems : List JValue)
  | obj (members : List (String × JValue))

/-- Python exceptions that the modelled code can raise or observe.
`unauthorizedAPIRequest` is the spec's AuthenticationError and
`unexpectedManagementAPIResponse` the spec's UnexpectedResponseError, under
their source names from `marklogic.exceptions`.  `otherError` stands for
any exception outside the kinds the code distinguishes. -/
inductive PyExc where
  | unauthorizedAPIRequest (text : String)
  | unexpectedManagementAPIResponse (text : String)
  | jsonDecodeError
  | keyError (key : String)
  | indexError
  | typeError
  | nameError
  | attributeError
  | badStatusLine
  | protocolError
  | connectionError
  | otherError (tag : String)
deriving DecidableEq

/-- Whitespace characters skipped by the JSON parser. -/
def isWsChar (c : Char) : Bool :=
  c = ' ' || c = '\n' || c = '\t' || c = '\r'

/-- Drop leading JSON whitespace. -/
def skipWs : List Char → List Char
  | [] => []
  | c :: cs => if isWsChar c then skipWs cs else c :: cs

/-- Split a leading run of decimal digits from the input. -/
def takeDigits : List Char → (List Char × List Char)
  | [] => ([], [])
  | c :: cs =>
    if c.isDigit then
      let p := takeDigits cs
      (c :: p.1, p.2)
    else ([], c :: cs)

/-- Numeric value of a digit run. -/
def digitsToNat : List Char → Nat → Nat
  | [], acc => acc
  | c :: cs, acc => digitsToNat cs (acc * 10 + (c.toNat - '0'.toNat))

/-- Translate a character following a backslash in a JSON string. -/
def unescapeChar (c : Char) : Char :=
  if c = 'n' then '\n' else if c = 't' then '\t' else if c = 'r' then '\r' else c

/-- Consume the characters of a JSON string after the opening quote,
returning the string contents and the remaining input. -/
def parseStrChars : List Char → Option (List Char × List Char)
  | [] => none
  | '\"' :: cs => some ([], cs)
  | '\\' :: d :: ds =>
    (parseStrChars ds).map (fun p => (unescapeChar d :: p.1, p.2))
  | c :: cs =>
    (parseStrChars cs).map (fun p => (c :: p.1, p.2))

mutual

/-- Recursive-descent JSON value parser (fuel-bounded). -/
def parseValue : Nat → List Char → Option (JValue × List Char)
  | 0, _ => none
  | fuel + 1, cs =>
    match skipWs cs with
    | [] => none
    | c :: rest =>
      if c = '\"' then
        (parseStrChars rest).map (fun p => (JValue.str (String.mk p.1), p.2))
      else if c = '\x7b' then
        match skipWs rest with
        | '\x7d' :: more => some (JValue.obj [], more)
        | inner => parseMembers fuel inner []
      else if c = '[' then
        match skipWs rest with
        | ']' :: more => some (JValue.arr [], more)
        | inner => parseElems fuel inner []
      else if c = 't' then
        match rest with
        | 'r' :: 'u' :: 'e' :: more => some (JValue.bool true, more)
        | _ => none
      else if c = 'f' then
        match rest with
        | 'a' :: 'l' :: 's' :: 'e' :: more => some (JValue.bool false, more)
        | _ => none
      else if c = 'n' then
        match rest with
        | 'u' :: 'l' :: 'l' :: more => some (JValue.null, more)
        | _ => none
      else if c = '-' then
        match takeDigits rest with
        | ([], _) => none
        | (ds, more) => some (JValue.num (-(Int.ofNat (digitsToNat ds 0))), more)
      else if c.isDigit then
        match takeDigits (c :: rest) with
        | (ds, more) => some (JValue.num (Int.ofNat (digitsToNat ds 0)), more)
      else none

/-- Parse the members of a JSON object after the opening brace. -/
def parseMembers : Nat → List Char → List (String × JValue) →
    Option (JValue × List Char)
  | 0, _, _ => none
  | fuel + 1, cs, acc =>
    match skipWs cs with
    | '\"' :: rest =>
      match parseStrChars rest with
      | none => none
      | some (key, afterKey) =>
        match skipWs afterKey with
        | ':' :: afterColon =>
          match parseValue fuel afterColon with
          | none => none
          | some (v, afterVal) =>
            match skipWs afterVal with
            | ',' :: more => parseMembers fuel more (acc ++ [(String.mk key, v)])
            | '\x7d' :: more => some (JValue.obj (acc ++ [(String.mk key, v)]), more)
            | _ => none
        | _ => none
    | _ => none

/-- Parse the elements of a JSON array after the opening bracket. -/
def parseElems : Nat → List Char → List JValue → Option (JValue × List Char)
  | 0, _, _ => none
  | fuel + 1, cs, acc =>
    match parseValue fuel cs with
    | none => none
    | some (v, afterVal) =>
      match skipWs afterVal with
      | ',' :: more => parseElems fuel more (acc ++ [v])
      | ']' :: more => some (JValue.arr (acc ++ [v]), more)
      | _ => none

end

namespace json

/-- Model of Python's `json.loads`: `some` on a document of the supported
JSON fragment, `none` where `json.loads` raises `JSONDecodeError`. -/
def loads (s : String) : Option JValue :=
  match parseValue (s.length * 2 + 4) s.data with
  | some (v, rest) => if skipWs rest = [] then some v else none
  | none => none

end json

/-- Python's `k in data` membership test: key membership on a dict, element
equality on a list, substring on a string; `TypeError` on non-container
values (as in `"restart" in data` for `data = json.loads(...)`). -/
def prefixChars : List Char → List Char → Bool
  | [], _ => true
  | _ :: _, [] => false
  | a :: as, b :: bs => a = b && prefixChars as bs

/-- Substring test used to model `needle in haystack` on Python strings. -/
def containsSub (needle : List Char) : List Char → Bool
  | [] => needle.isEmpty
  | c :: rest => prefixChars needle (c :: rest) || containsSub needle rest

/-- Python `key in data` for a `json.loads` result. -/
def JValue.hasKey : JValue → String → Except PyExc Bool
  | .obj kvs, k => .ok (kvs.any (fun kv => kv.1 == k))
  | .arr xs, k =>
    .ok (xs.any (fun x => match x with
      | .str s => s == k
      | _ => false))
  | .str s, k => .ok (containsSub k.data s.data)
  | _, _ => .error .typeError

/-- Python `data[k]` for a string key: dict lookup (last binding wins, as
`json.loads` keeps the last duplicate), `KeyError` when absent, `TypeError`
on non-dict values. -/
def JValue.getKey : JValue → String → Except PyExc JValue
  | .obj kvs, k =>
    match kvs.reverse.find? (fun kv => kv.1 == k) with
    | some kv => .ok kv.2
    | none => .error (.keyError k)
  | _, _ => .error .typeError

/-- Python `data[i]` for an integer index: list indexing with `IndexError`
out of range, one-character string on strings, `KeyError` on dicts (the
integer is not a key), `TypeError` otherwise. -/
def JValue.getIdx : JValue → Nat → Except PyExc JValue
  | .arr xs, i =>
    match xs.get? i with
    | some v => .ok v
    | none => .error .indexError
  | .str s, i =>
    match s.data.get? i with
    | some ch => .ok (.str (String.mk [ch]))
    | none => .error .indexError
  | .obj _, _ => .error (.keyError "0")
  | _, _ => .error .typeError

/-- The extraction `data["restart"]["last-startup"][0]["value"]` performed
by `Connection._response` on a 202 body. -/
def extractRestartVal (data : JValue) : Except PyExc JValue :=
  match data.getKey "restart" with
  | .error e => .error e
  | .ok r =>
    match r.getKey "last-startup" with
    | .error e => .error e
    | .ok ls =>
      match ls.getIdx 0 with
      | .error e => .error e
      | .ok first => first.getKey "value"

/-- Normalized response handle: status code, body text, headers. -/
structure Response where
  status_code : Nat
  text : String
  headers : List (String × String) := []
deriving DecidableEq

/-- The `Connection` object (the spec's Endpoint): connection configuration
as assigned in `Connection.__init__`, plus the `self.response` attribute
that the dispatch methods assign before calling `_response` (absent, i.e.
`none`, until the first request).  `auth` is the opaque credential. -/
structure Connection where
  host : String
  auth : String
  protocol : String := "http"
  port : Nat := 8000
  management_port : Nat := 8002
  root : String := "manage"
  version : String := "v2"
  response : Option Response := none
deriving DecidableEq

/-- The URI builder `Connection.uri`: every argument defaulting to `None`
falls back to the stored configuration (`port` falls back to the
management port), a supplied name contributes `/name` plus the
`properties` suffix unless that is suppressed with `None`, and parameters
are joined verbatim with `&` after `?`. -/
def Connection.uri (c : Connection) (relation : String)
    (name : Option String := none)
    (protocol : Option String := none) (host : Option String := none)
    (port : Option Nat := none) (root : Option String := none)
    (version : Option String := none)
    (properties : Option String := some "/properties")
    (parameters : Option (List String) := none) : String :=
  let protocol := protocol.getD c.protocol
  let host := host.getD c.host
  let port := port.getD c.management_port
  let root := root.getD c.root
  let version := version.getD c.version
  let nameSeg :=
    match name with
    | none => ""
    | some n =>
      match properties with
      | none => "/" ++ n
      | some props => "/" ++ n ++ props
  let base := protocol ++ "://" ++ host ++ ":" ++ toString port ++ "/" ++ root
      ++ "/" ++ version ++ "/" ++ relation ++ nameSeg
  match parameters with
  | none => base
  | some ps => base ++ "?" ++ String.intercalate "&" ps

/-- The status-code policy of `Connection._response` (the if/elif chain of
lines 151-158): statuses below 300 and status 404 pass, 401 raises
`UnauthorizedAPIRequest` with the body text, every other status raises
`UnexpectedManagementAPIResponse` with the body text. -/
def statusGate (response : Response) : Except PyExc Unit :=
  if response.status_code < 300 then .ok ()
  else if response.status_code = 404 then .ok ()
  else if response.status_code = 401 then .error (.unauthorizedAPIRequest response.text)
  else .error (.unexpectedManagementAPIResponse response.text)

/-- Outcome of one `requests.get` poll attempt inside `wait_for_restart`,
as supplied by the transport environment: either an HTTP response
(status, body) or an exception raised by the call. -/
inductive PollEvent where
  | resp (status : Nat) (text : String)
  | exc (e : PyExc)
deriving DecidableEq

/-- Result of the restart-wait loop, instrumented with the number of poll
attempts issued and the number of `time.sleep(4)` calls performed. -/
inductive WaitOutcome where
  | restarted (polls : Nat) (sleeps : Nat)
  | raised (e : PyExc) (polls : Nat) (sleeps : Nat)
  | outOfEvents
deriving DecidableEq

/-- The exception types whose `except` handlers in `wait_for_restart` log
the previous response before absorbing the failure: `TypeError`,
`BadStatusLine` and `ProtocolError` (the `ConnectionError` handler logs a
plain message instead). -/
def transientLogged : PyExc → Bool
  | .typeError | .badStatusLine | .protocolError => true
  | _ => false

/-- Python `response.text != last_startup` where `text` is a `str` and
`last_startup` is the value extracted from the 202 body: equality test when
that value is a string, always unequal otherwise. -/
def pyNe (text : String) (last : JValue) : Bool :=
  match last with
  | .str s => text != s
  | _ => true

/-- One iteration of the `try`/`except` block of `wait_for_restart`:
on a response, the local `response` variable is (re)bound and
`done = response.status_code == 200 and response.text != last_startup`;
a `ConnectionError` is absorbed; a `TypeError`, `BadStatusLine` or
`ProtocolError` is absorbed only when the local `response` variable is
already bound — otherwise the handler's own logging line raises
`NameError` (unbound local); any other exception propagates.  Returns the
updated binding of `response` and the `done` flag, or the escaping
exception. -/
def pollAttempt (last : JValue) (bound : Option (Nat × String)) :
    PollEvent → Except PyExc (Option (Nat × String) × Bool)
  | .resp s t => .ok (some (s, t), s == 200 && pyNe t last)
  | .exc e =>
    if e = PyExc.connectionError then .ok (bound, false)
    else if transientLogged e then
      match bound with
      | some _ => .ok (bound, false)
      | none => .error .nameError
    else .error e

/-- The `while not done` loop of `wait_for_restart`: after every attempt
(absorbed or not-yet-done) the loop sleeps 4 seconds and decrements
`count`; when `count` reaches 0 it raises
`UnexpectedManagementAPIResponse("Restart hung?")` — this check precedes
the `done` test, so it fires even when the final attempt succeeded.
`outOfEvents` means the environment trace was too short to decide. -/
def waitLoop (last : JValue) :
    List PollEvent → Option (Nat × String) → Nat → Nat → Nat → WaitOutcome
  | [], _, _, _, _ => .outOfEvents
  | e :: rest, bound, count, polls, sleeps =>
    match pollAttempt last bound e with
    | .error ex => .raised ex (polls + 1) sleeps
    | .ok (bound2, done) =>
      if count - 1 = 0 then
        .raised (.unexpectedManagementAPIResponse "Restart hung?") (polls + 1) (sleeps + 1)
      else if done then .restarted (polls + 1) (sleeps + 1)
      else waitLoop last rest bound2 (count - 1) (polls + 1) (sleeps + 1)

/-- The fixed inter-attempt delay, in seconds, of `time.sleep(4)`. -/
def sleepDelay : Nat := 4

/-- The liveness-check URI polled by `wait_for_restart`: fixed port 8001
and fixed path, independent of the management port/root/version. -/
def Connection.restartPollUri (c : Connection)
    (timestamp_uri : String := "/admin/v1/timestamp") : String :=
  c.protocol ++ "://" ++ c.host ++ ":8001" ++ timestamp_uri

/-- `Connection.wait_for_restart`: poll the liveness endpoint with a budget
of 24 attempts, given the previously reported startup timestamp and the
transport environment's trace of poll outcomes. -/
def Connection.wait_for_restart (_c : Connection) (last_startup : JValue)
    (events : List PollEvent) : WaitOutcome :=
  waitLoop last_startup events none 24 0 0

/-- `Connection._response`: reads `self.response` (raising
`AttributeError` if never assigned), applies the status-code policy, and
on a 202 parses the body with `json.loads` (a parse failure raises
`JSONDecodeError`); when a `"restart"` descriptor is present it extracts
`data["restart"]["last-startup"][0]["value"]` and runs `wait_for_restart`
synchronously before returning the handle, otherwise the handle is
returned immediately.  The result is `none` only when the modelled
environment trace is too short for the wait loop. -/
def Connection._response (c : Connection) (events : List PollEvent) :
    Option (Except PyExc Response) :=
  match c.response with
  | none => some (.error .attributeError)
  | some response =>
    match statusGate response with
    | .error e => some (.error e)
    | .ok _ =>
      if response.status_code = 202 then
        match json.loads response.text with
        | none => some (.error .jsonDecodeError)
        | some data =>
          match data.hasKey "restart" with
          | .error e => some (.error e)
          | .ok true =>
            match extractRestartVal data with
            | .error e => some (.error e)
            | .ok v =>
              match c.wait_for_restart v events with
              | .restarted _ _ => some (.ok response)
              | .raised e _ _ => some (.error e)
              | .outOfEvents => none
          | .ok false => some (.ok response)
      else some (.ok response)

/-- How the payload of a dispatch call is put on the wire: no body, the
`json=payload` structured serialization, or the `data=payload` raw body. -/
inductive BodyKind where
  | empty
  | jsonBody (payload : JValue)
  | rawBody (payload : JValue)

/-- The request a dispatch method hands to the transport: verb, target
URI, headers in insertion order, and body serialization. -/
structure SentRequest where
  method : String
  uri : String
  headers : List (String × String)
  body : BodyKind

/-- Headers assembled by `post`/`put`/`delete`: `content-type` and
`accept`, plus `if-match` when an etag is supplied. -/
def dispatchHeaders (content_type accept : String) (etag : Option String) :
    List (String × String) :=
  match etag with
  | none => [("content-type", content_type), ("accept", accept)]
  | some e => [("content-type", content_type), ("accept", accept), ("if-match", e)]

/-- `Connection.head` sends no headers and no body. -/
def headRequest (uri : String) : SentRequest :=
  { method := "HEAD", uri := uri, headers := [], body := .empty }

/-- `Connection.get` sends an `accept` header and no body. -/
def getRequest (uri : String) (accept : String) : SentRequest :=
  { method := "GET", uri := uri, headers := [("accept", accept)], body := .empty }

/-- `Connection.post`: a payload is serialized with `json=payload` exactly
when the content type is `application/json`, otherwise sent raw with
`data=payload`. -/
def postRequest (uri : String) (payload : Option JValue) (etag : Option String)
    (content_type accept : String) : SentRequest :=
  { method := "POST", uri := uri,
    headers := dispatchHeaders content_type accept etag,
    body :=
      match payload with
      | none => .empty
      | some p =>
        if content_type = "application/json" then .jsonBody p else .rawBody p }

/-- `Connection.put`: a payload is always serialized with `json=payload`,
regardless of the content type. -/
def putRequest (uri : String) (payload : Option JValue) (etag : Option String)
    (content_type accept : String) : SentRequest :=
  { method := "PUT", uri := uri,
    headers := dispatchHeaders content_type accept etag,
    body :=
      match payload with
      | none => .empty
      | some p => .jsonBody p }

/-- `Connection.delete`: a payload is always serialized with
`json=payload`, regardless of the content type. -/
def deleteRequest (uri : String) (payload : Option JValue) (etag : Option String)
    (content_type accept : String) : SentRequest :=
  { method := "DELETE", uri := uri,
    headers := dispatchHeaders content_type accept etag,
    body :=
      match payload with
      | none => .empty
      | some p => .jsonBody p }

/-- `Connection.head` as a state transition: the request sent, the
connection after `self.response = requests.head(...)`, and the classified
result of `self._response()` (given the transport's response `net` and the
poll-event trace `events`). -/
def Connection.head (c : Connection) (uri : String)
    (_accept : String) (net : Response) (events : List PollEvent) :
    SentRequest × Connection × Option (Except PyExc Response) :=
  let c2 : Connection := { c with response := some net }
  (headRequest uri, c2, Connection._response c2 events)

/-- `Connection.get` as a state transition (see `Connection.head`). -/
def Connection.get (c : Connection) (uri : String)
    (accept : String) (net : Response) (events : List PollEvent) :
    SentRequest × Connection × Option (Except PyExc Response) :=
  let c2 : Connection := { c with response := some net }
  (getRequest uri accept, c2, Connection._response c2 events)

/-- `Connection.post` as a state transition (see `Connection.head`). -/
def Connection.post (c : Connection) (uri : String) (payload : Option JValue)
    (etag : Option String) (content_type accept : String)
    (net : Response) (events : List PollEvent) :
    SentRequest × Connection × Option (Except PyExc Response) :=
  let c2 : Connection := { c with response := some net }
  (postRequest uri payload etag content_type accept, c2, Connection._response c2 events)

/-- `Connection.put` as a state transition (see `Connection.head`). -/
def Connection.put (c : Connection) (uri : String) (payload : Option JValue)
    (etag : Option String) (content_type accept : String)
    (net : Response) (events : List PollEvent) :
    SentRequest × Connection × Option (Except PyExc Response) :=
  let c2 : Connection := { c with response := some net }
  (putRequest uri payload etag content_type accept, c2, Connection._response c2 events)

/-- `Connection.delete` as a state transition (see `Connection.head`). -/
def Connection.delete (c : Connection) (uri : String) (payload : Option JValue)
    (etag : Option String) (content_type accept : String)
    (net : Response) (events : List PollEvent) :
    SentRequest × Connection × Option (Except PyExc Response) :=
  let c2 : Connection := { c with response := some net }
  (deleteRequest uri payload etag content_type accept, c2, Connection._response c2 events)

/-- Written to the spec's words (§6): the URI shape
`scheme://host:port/root/version/relation[/name[/properties]][?params]`,
with the `/properties` suffix appended only when a name is supplied and
the suffix is not suppressed, and parameters joined verbatim with `&`
after a single `?`.  Companion definition for the refinement claim about
`Connection.uri`. -/
def uriSpecShape (scheme host : String) (port : Nat)
    (root version relation : String) (name : Option String)
    (suppressProperties : Bool) (parameters : Option (List String)) : String :=
  let core := scheme ++ "://" ++ host ++ ":" ++ toString port ++ "/" ++ root
      ++ "/" ++ version ++ "/" ++ relation
      ++ (match name with
          | none => ""
          | some n =>
            if suppressProperties then "/" ++ n else "/" ++ n ++ "/properties")
  match parameters with
  | none => core
  | some ps => core ++ "?" ++ String.intercalate "&" ps

/-- Written to the spec's words (§7): membership in the documented error
taxonomy — AuthenticationError (`UnauthorizedAPIRequest`),
UnexpectedResponseError (`UnexpectedManagementAPIResponse`), and the named
transport errors that may propagate (malformed status line, protocol
reset, connection failure). -/
def taxonomyMemberSpec : PyExc → Bool
  | .unauthorizedAPIRequest _ => true
  | .unexpectedManagementAPIResponse _ => true
  | .badStatusLine => true
  | .protocolError => true
  | .connectionError => true
  | _ => false

/-- Errors of the 202 body-parsing and descriptor-extraction path:
`JSONDecodeError` from `json.loads`, and `KeyError`/`IndexError`/
`TypeError` from the subscript chain on the parsed data. -/
def parseFamily : PyExc → Bool
  | .jsonDecodeError => true
  | .keyError _ => true
  | .indexError => true
  | .typeError => true
  | _ => false

/-- The binding of the local `response` variable of `wait_for_restart`
after one poll event: a received response rebinds it, an exception leaves
it unchanged. -/
def updBound (bound : Option (Nat × String)) : PollEvent → Option (Nat × String)
  | .resp s t => some (s, t)
  | .exc _ => bound

/-- Whether a poll attempt completes the loop iteration (rather than
escaping it with an exception), given the current binding of the local
`response` variable. -/
def stepCompletes (bound : Option (Nat × String)) : PollEvent → Bool
  | .resp _ _ => true
  | .exc e =>
    if e = PyExc.connectionError then true
    else if transientLogged e then bound.isSome
    else false

/-- Whether a poll attempt sets `done`: a status-200 response whose body
differs from the reported startup timestamp. -/
def stepConfirms (last : JValue) : PollEvent → Bool
  | .resp s t => s == 200 && pyNe t last
  | .exc _ => false

/-- A trace prefix on which every attempt completes without confirming:
the loop runs through all of it, threading the `response` binding. -/
def cleanRun (last : JValue) :
    Option (Nat × String) → List PollEvent → Bool
  | _, [] => true
  | bound, e :: rest =>
    stepCompletes bound e && !stepConfirms last e
      && cleanRun last (updBound bound e) rest

/-- The binding of the local `response` variable after a trace prefix. -/
def boundAfter (bound : Option (Nat × String)) : List PollEvent →
    Option (Nat × String)
  | [] => bound
  | e :: rest => boundAfter (updBound bound e) rest

/-- Shared concrete endpoint used by witnesses and counterexamples. -/
def cBase : Connection := { host := "localhost", auth := "admin" }

/-- A 202 body with a restart descriptor reporting timestamp T0. -/
def restartBody : String :=
  "\x7b\"restart\": \x7b\"last-startup\": [\x7b\"value\": \"T0\"\x7d]\x7d\x7d"

/-- The parse of `restartBody`. -/
def restartData : JValue :=
  JValue.obj [("restart", JValue.obj [("last-startup",
    JValue.arr [JValue.obj [("value", JValue.str "T0")]])])]

/-- A 202 response carrying a restart descriptor. -/
def rRestart : Response := { status_code := 202, text := restartBody }

/-- The endpoint right after receiving `rRestart`. -/
def cRestart : Connection := { cBase with response := some rRestart }

/-- A poll trace on which the node never reports a new timestamp. -/
def staleEvents : List PollEvent := List.replicate 24 (PollEvent.resp 200 "T0")

/-- A 401 response used by witnesses. -/
def r401 : Response := { status_code := 401, text := "denied" }

/-- The endpoint right after receiving `r401`. -/
def c401 : Connection := { cBase with response := some r401 }

/-- Decidable equality for classified results, for concrete evaluation. -/
instance : DecidableEq (Except PyExc Response) :=
  fun a b =>
    match a, b with
    | .ok x, .ok y =>
      if h : x = y then .isTrue (by rw [h]) else .isFalse (fun hh => by cases hh; exact h rfl)
    | .error x, .error y =>
      if h : x = y then .isTrue (by rw [h]) else .isFalse (fun hh => by cases hh; exact h rfl)
    | .ok _, .error _ => .isFalse (fun hh => by cases hh)
    | .error _, .ok _ => .isFalse (fun hh => by cases hh)

/-- Poll trace whose 24th attempt is the first confirming one. -/
def lateConfirmEvents : List PollEvent :=
  List.replicate 23 (PollEvent.resp 200 "T0") ++ [PollEvent.resp 200 "T1"]

/-- A 202 response whose body parses to a non-container value. -/
def rNum202 : Response := { status_code := 202, text := "5" }

/-- The endpoint right after receiving `rNum202`. -/
def cNum202 : Connection := { cBase with response := some rNum202 }

/-- A 204 success response used by witnesses. -/
def r204 : Response := { status_code := 204, text := "" }

/-- The endpoint right after receiving `r204`. -/
def c204 : Connection := { cBase with response := some r204 }

/-- A 202 response whose body is not valid structured data. -/
def rBadJson : Response := { status_code := 202, text := "not json" }

/-- The endpoint right after receiving `rBadJson`. -/
def cBadJson : Connection := { cBase with response := some rBadJson }

theorem pollAttempt_of_completes (last : JValue) (bound : Option (Nat × String))
    (e : PollEvent) (h : stepCompletes bound e = true) :
    pollAttempt last bound e = .ok (updBound bound e, stepConfirms last e) := by
  cases e with
  | resp s t => rfl
  | exc ex =>
    by_cases hce : ex = PyExc.connectionError
    · simp [pollAttempt, hce, updBound, stepConfirms]
    · by_cases htl : transientLogged ex = true
      · simp only [stepCompletes, if_neg hce, if_pos htl] at h
        obtain ⟨p, hp⟩ := Option.isSome_iff_exists.mp h
        subst hp
        simp [pollAttempt, hce, htl, updBound, stepConfirms]
      · simp [stepCompletes, hce, htl] at h

theorem pollAttempt_error_cases (last : JValue) (bound : Option (Nat × String))
    (ev : PollEvent) (ex : PyExc) (h : pollAttempt last bound ev = .error ex) :
    ex = .nameError ∨ ev = .exc ex := by
  cases ev with
  | resp s t => simp [pollAttempt] at h
  | exc e2 =>
    by_cases hce : e2 = PyExc.connectionError
    · simp [pollAttempt, hce] at h
    · by_cases htl : transientLogged e2 = true
      · cases bound with
        | some p => simp [pollAttempt, hce, htl] at h
        | none =>
          simp only [pollAttempt, if_neg hce, if_pos htl] at h
          cases h
          exact Or.inl rfl
      · simp only [pollAttempt, if_neg hce, if_neg htl] at h
        cases h
        exact Or.inr rfl

theorem waitLoop_over_cleanRun (last : JValue) (pre : List PollEvent) :
    ∀ (rest : List PollEvent) (bound : Option (Nat × String)) (count polls sleeps : Nat),
    cleanRun last bound pre = true → pre.length < count →
    waitLoop last (pre ++ rest) bound count polls sleeps =
      waitLoop last rest (boundAfter bound pre) (count - pre.length)
        (polls + pre.length) (sleeps + pre.length) := by
  induction pre with
  | nil =>
    intro rest bound count polls sleeps _ _
    simp [boundAfter]
  | cons e pre ih =>
    intro rest bound count polls sleeps hclean hlen
    simp only [cleanRun, Bool.and_eq_true, Bool.not_eq_true'] at hclean
    obtain ⟨⟨hcomp, hconf⟩, hrest⟩ := hclean
    simp only [List.length_cons] at hlen
    have hlen' : pre.length < count - 1 := by omega
    have h1 : ¬(count - 1 = 0) := by omega
    simp only [List.cons_append, waitLoop,
      pollAttempt_of_completes last bound e hcomp, hconf, if_neg h1,
      Bool.false_eq_true, if_false, List.append_eq]
    rw [ih rest (updBound bound e) (count - 1) (polls + 1) (sleeps + 1) hrest hlen']
    have e1 : count - 1 - pre.length = count - (pre.length + 1) := by omega
    have e2 : polls + 1 + pre.length = polls + (pre.length + 1) := by omega
    have e3 : sleeps + 1 + pre.length = sleeps + (pre.length + 1) := by omega
    simp only [boundAfter, List.length_cons, e1, e2, e3]

theorem waitLoop_confirm_at (last : JValue) (pre rest : List PollEvent)
    (e : PollEvent) (bound : Option (Nat × String)) (count polls sleeps : Nat)
    (hclean : cleanRun last bound pre = true)
    (hlen : pre.length + 1 < count)
    (hconf : stepConfirms last e = true) :
    waitLoop last (pre ++ e :: rest) bound count polls sleeps =
      .restarted (polls + pre.length + 1) (sleeps + pre.length + 1) := by
  rw [waitLoop_over_cleanRun last pre (e :: rest) bound count polls sleeps hclean (by omega)]
  have hcomp : stepCompletes (boundAfter bound pre) e = true := by
    cases e with
    | resp s t => rfl
    | exc ex => simp [stepConfirms] at hconf
  have h1 : ¬(count - pre.length - 1 = 0) := by omega
  simp only [waitLoop, pollAttempt_of_completes last _ e hcomp, hconf,
    if_neg h1, if_true, Nat.add_assoc]

theorem waitLoop_hung_at (last : JValue) (pre rest : List PollEvent)
    (e : PollEvent) (bound : Option (Nat × String)) (polls sleeps : Nat)
    (hclean : cleanRun last bound pre = true)
    (hcomp : stepCompletes (boundAfter bound pre) e = true) :
    waitLoop last (pre ++ e :: rest) bound (pre.length + 1) polls sleeps =
      .raised (.unexpectedManagementAPIResponse "Restart hung?")
        (polls + pre.length + 1) (sleeps + pre.length + 1) := by
  rw [waitLoop_over_cleanRun last pre (e :: rest) bound (pre.length + 1) polls sleeps
    hclean (by omega)]
  have hc : pre.length + 1 - pre.length = 1 := by omega
  rw [hc]
  simp only [waitLoop, pollAttempt_of_completes last _ e hcomp]
  simp [Nat.add_assoc]

theorem waitLoop_absorb_at (last : JValue) (pre rest : List PollEvent)
    (e : PollEvent) (bound : Option (Nat × String)) (count polls sleeps : Nat)
    (hclean : cleanRun last bound pre = true)
    (hlen : pre.length + 1 < count)
    (hcomp : stepCompletes (boundAfter bound pre) e = true)
    (hconf : stepConfirms last e = false) :
    waitLoop last (pre ++ e :: rest) bound count polls sleeps =
      waitLoop last rest (updBound (boundAfter bound pre) e)
        (count - (pre.length + 1)) (polls + pre.length + 1) (sleeps + pre.length + 1) := by
  rw [waitLoop_over_cleanRun last pre (e :: rest) bound count polls sleeps hclean (by omega)]
  have e1 : count - pre.length - 1 = count - (pre.length + 1) := by omega
  have h1 : ¬(count - (pre.length + 1) = 0) := by omega
  simp only [waitLoop, pollAttempt_of_completes last _ e hcomp, hconf,
    Bool.false_eq_true, if_false, e1, Nat.add_assoc, if_neg h1]

theorem waitLoop_escape_at (last : JValue) (pre rest : List PollEvent)
    (e : PollEvent) (bound : Option (Nat × String)) (count polls sleeps : Nat)
    (ex : PyExc)
    (hclean : cleanRun last bound pre = true)
    (hlen : pre.length < count)
    (herr : pollAttempt last (boundAfter bound pre) e = .error ex) :
    waitLoop last (pre ++ e :: rest) bound count polls sleeps =
      .raised ex (polls + pre.length + 1) (sleeps + pre.length) := by
  rw [waitLoop_over_cleanRun last pre (e :: rest) bound count polls sleeps hclean hlen]
  simp only [waitLoop, herr, Nat.add_assoc]

theorem waitLoop_raised_classify (last : JValue) (events : List PollEvent) :
    ∀ (bound : Option (Nat × String)) (count polls sleeps : Nat) (e : PyExc) (p s : Nat),
    waitLoop last events bound count polls sleeps = .raised e p s →
    e = .unexpectedManagementAPIResponse "Restart hung?" ∨ e = .nameError ∨
      ∃ i, events.get? i = some (.exc e) := by
  induction events with
  | nil =>
    intro bound count polls sleeps e p s h
    simp [waitLoop] at h
  | cons ev rest ih =>
    intro bound count polls sleeps e p s h
    simp only [waitLoop] at h
    cases hat : pollAttempt last bound ev with
    | error ex =>
      simp only [hat] at h
      cases h
      rcases pollAttempt_error_cases last bound ev e hat with hne | hev
      · exact Or.inr (Or.inl hne)
      · subst hev
        exact Or.inr (Or.inr ⟨0, rfl⟩)
    | ok pr =>
      obtain ⟨bound2, done⟩ := pr
      simp only [hat] at h
      by_cases h0 : count - 1 = 0
      · rw [if_pos h0] at h
        cases h
        exact Or.inl rfl
      · rw [if_neg h0] at h
        by_cases hd : done = true
        · rw [if_pos hd] at h
          simp at h
        · rw [Bool.not_eq_true] at hd
          rw [hd] at h
          simp only [Bool.false_eq_true, if_false] at h
          rcases ih bound2 (count - 1) (polls + 1) (sleeps + 1) e p s h with h1 | h2 | ⟨i, hi⟩
          · exact Or.inl h1
          · exact Or.inr (Or.inl h2)
          · exact Or.inr (Or.inr ⟨i + 1, hi⟩)

theorem drop_cons_of_getq {α : Type} : ∀ (l : List α) (k : Nat) (x : α),
    l.get? k = some x → l.drop k = x :: l.drop (k + 1) := by
  intro l
  induction l with
  | nil => intro k x h; simp at h
  | cons a t ih =>
    intro k x h
    cases k with
    | zero =>
      simp only [List.get?] at h
      cases h
      rfl
    | succ k =>
      simp only [List.get?] at h
      simpa [List.drop] using ih k x h

theorem take_all_eq_of_getq {α : Type} : ∀ (l : List α) (n : Nat) (v : α),
    (∀ i, i < n → l.get? i = some v) → ∀ x ∈ l.take n, x = v := by
  intro l
  induction l with
  | nil => intro n v _ x hx; simp at hx
  | cons a t ih =>
    intro n v hall x hx
    cases n with
    | zero => simp at hx
    | succ n =>
      simp only [List.take] at hx
      rcases List.mem_cons.mp hx with h | h
      · subst h
        have h0 := hall 0 (by omega)
        simp only [List.get?] at h0
        cases h0
        rfl
      · exact ih n v (fun i hi => hall (i + 1) (by omega)) x h

theorem cleanRun_of_all_stale (t0 : String) : ∀ (l : List PollEvent)
    (bound : Option (Nat × String)),
    (∀ x ∈ l, x = PollEvent.resp 200 t0) → cleanRun (.str t0) bound l = true := by
  intro l
  induction l with
  | nil => intro bound _; rfl
  | cons e rest ih =>
    intro bound hall
    have he := hall e (by simp)
    subst he
    have hrest := ih (some (200, t0)) (fun x hx => hall x (List.mem_cons_of_mem _ hx))
    simp [cleanRun, stepCompletes, stepConfirms, pyNe, updBound, hrest]

theorem statusGate_lt {r : Response} (h : r.status_code < 300) :
    statusGate r = .ok () := by
  simp only [statusGate]
  rw [if_pos h]

theorem statusGate_404 {r : Response} (h : r.status_code = 404) :
    statusGate r = .ok () := by
  have h1 : ¬(r.status_code < 300) := by omega
  simp only [statusGate]
  rw [if_neg h1, if_pos h]

theorem statusGate_401 {r : Response} (h : r.status_code = 401) :
    statusGate r = .error (.unauthorizedAPIRequest r.text) := by
  have h1 : ¬(r.status_code < 300) := by omega
  have h4 : ¬(r.status_code = 404) := by omega
  simp only [statusGate]
  rw [if_neg h1, if_neg h4, if_pos h]

theorem statusGate_other {r : Response} (h3 : 300 ≤ r.status_code)
    (h404 : r.status_code ≠ 404) (h401 : r.status_code ≠ 401) :
    statusGate r = .error (.unexpectedManagementAPIResponse r.text) := by
  have h1 : ¬(r.status_code < 300) := by omega
  simp only [statusGate]
  rw [if_neg h1, if_neg h404, if_neg h401]

theorem response_ok_of_ne202 {c : Connection} {r : Response}
    {events : List PollEvent} (hr : c.response = some r)
    (hg : statusGate r = .ok ()) (h202 : r.status_code ≠ 202) :
    Connection._response c events = some (.ok r) := by
  simp [Connection._response, hr, hg, h202]

theorem response_error_of_gate {c : Connection} {r : Response}
    {events : List PollEvent} {e : PyExc} (hr : c.response = some r)
    (hg : statusGate r = .error e) :
    Connection._response c events = some (.error e) := by
  simp [Connection._response, hr, hg]

theorem response_202_badjson {c : Connection} {r : Response}
    {events : List PollEvent} (hr : c.response = some r)
    (h202 : r.status_code = 202) (hload : json.loads r.text = none) :
    Connection._response c events = some (.error .jsonDecodeError) := by
  simp [Connection._response, hr, statusGate_lt (show r.status_code < 300 by omega),
    h202, hload]

theorem response_202_haskey_error {c : Connection} {r : Response}
    {events : List PollEvent} {data : JValue} {e : PyExc}
    (hr : c.response = some r) (h202 : r.status_code = 202)
    (hload : json.loads r.text = some data)
    (hkey : data.hasKey "restart" = .error e) :
    Connection._response c events = some (.error e) := by
  simp [Connection._response, hr, statusGate_lt (show r.status_code < 300 by omega),
    h202, hload, hkey]

theorem response_202_norestart {c : Connection} {r : Response}
    {events : List PollEvent} {data : JValue}
    (hr : c.response = some r) (h202 : r.status_code = 202)
    (hload : json.loads r.text = some data)
    (hkey : data.hasKey "restart" = .ok false) :
    Connection._response c events = some (.ok r) := by
  simp [Connection._response, hr, statusGate_lt (show r.status_code < 300 by omega),
    h202, hload, hkey]

theorem response_202_extract_error {c : Connection} {r : Response}
    {events : List PollEvent} {data : JValue} {e : PyExc}
    (hr : c.response = some r) (h202 : r.status_code = 202)
    (hload : json.loads r.text = some data)
    (hkey : data.hasKey "restart" = .ok true)
    (hex : extractRestartVal data = .error e) :
    Connection._response c events = some (.error e) := by
  simp [Connection._response, hr, statusGate_lt (show r.status_code < 300 by omega),
    h202, hload, hkey, hex]

theorem response_202_restart {c : Connection} {r : Response}
    {events : List PollEvent} {data v : JValue}
    (hr : c.response = some r) (h202 : r.status_code = 202)
    (hload : json.loads r.text = some data)
    (hkey : data.hasKey "restart" = .ok true)
    (hex : extractRestartVal data = .ok v) :
    Connection._response c events =
      (match c.wait_for_restart v events with
       | .restarted _ _ => some (.ok r)
       | .raised e _ _ => some (.error e)
       | .outOfEvents => none) := by
  simp [Connection._response, hr, statusGate_lt (show r.status_code < 300 by omega),
    h202, hload, hkey, hex]

/-- C1: for every response handed to the Response Classifier, the
status-code policy passes a status below 300 and the status 404 through
unchanged (below 300 the gate raises nothing, and for a non-202 status the
very same handle is returned), raises `UnauthorizedAPIRequest` (the spec's
AuthenticationError) carrying the response body text on 401, and raises
`UnexpectedManagementAPIResponse` (the spec's UnexpectedResponseError)
carrying the response body text on every other status at least 300. -/
theorem claim1_status_policy (c : Connection) (r : Response)
    (events : List PollEvent) (hr : c.response = some r) :
    (r.status_code < 300 → statusGate r = .ok () ∧
      (r.status_code ≠ 202 → Connection._response c events = some (.ok r)))
    ∧ (r.status_code = 404 → Connection._response c events = some (.ok r))
    ∧ (r.status_code = 401 →
        Connection._response c events = some (.error (.unauthorizedAPIRequest r.text)))
    ∧ (300 ≤ r.status_code → r.status_code ≠ 404 → r.status_code ≠ 401 →
        Connection._response c events =
          some (.error (.unexpectedManagementAPIResponse r.text))) := by
  refine ⟨?_, ?_, ?_, ?_⟩
  · intro h
    exact ⟨statusGate_lt h, fun h202 => response_ok_of_ne202 hr (statusGate_lt h) h202⟩
  · intro h
    exact response_ok_of_ne202 hr (statusGate_404 h) (by omega)
  · intro h
    exact response_error_of_gate hr (statusGate_401 h)
  · intro h3 h404 h401
    exact response_error_of_gate hr (statusGate_other h3 h404 h401)

/-- Witness for C1 at a concrete 401 response. -/
theorem claim1_status_policy_witness :
    Connection._response c401 [] = some (.error (.unauthorizedAPIRequest "denied")) :=
  (claim1_status_policy c401 r401 [] rfl).2.2.1 rfl

/-- C7: the URI Builder produces exactly the spec's format string
`scheme://host:port/root/version/relation[/name[/properties]][?params]`:
every unspecified override falls back to the Endpoint's stored value (the
port falling back to the stored management port), the `/properties` suffix
appears exactly when a name is supplied and the suffix is not suppressed,
and parameters are joined verbatim with `&` after a single `?`.  Since the
right-hand side threads each override into exactly one segment, overriding
any single Endpoint field changes only that field's segment. -/
theorem claim7_uri_format (c : Connection) (relation : String)
    (name : Option String) (protocol host : Option String) (port : Option Nat)
    (root version : Option String) (suppressProperties : Bool)
    (parameters : Option (List String)) :
    Connection.uri c relation name protocol host port root version
        (if suppressProperties then none else some "/properties") parameters
      = uriSpecShape (protocol.getD c.protocol) (host.getD c.host)
          (port.getD c.management_port) (root.getD c.root) (version.getD c.version)
          relation name suppressProperties parameters := by
  cases suppressProperties <;> cases name <;> cases parameters <;> rfl

/-- C4: given a 202 response whose restart descriptor reports timestamp
`t0`, if every liveness check within the budget returns status 200 with
body `t0`, the reconciler raises
`UnexpectedManagementAPIResponse("Restart hung?")` after exactly 24 poll
attempts and 24 fixed-delay sleeps (one after each attempt), and
`_response` propagates that error to the caller. -/
theorem claim4_restart_hung (c : Connection) (r : Response)
    (events : List PollEvent) (data : JValue) (t0 : String)
    (hr : c.response = some r) (h202 : r.status_code = 202)
    (hload : json.loads r.text = some data)
    (hkey : data.hasKey "restart" = .ok true)
    (hex : extractRestartVal data = .ok (.str t0))
    (hev : ∀ i, i < 24 → events.get? i = some (.resp 200 t0)) :
    Connection.wait_for_restart c (.str t0) events =
      .raised (.unexpectedManagementAPIResponse "Restart hung?") 24 24
    ∧ Connection._response c events =
      some (.error (.unexpectedManagementAPIResponse "Restart hung?")) := by
  have h23 : events.get? 23 = some (.resp 200 t0) := hev 23 (by omega)
  obtain ⟨hlt, -⟩ := List.get?_eq_some.mp h23
  have hlen : (events.take 23).length = 23 := by
    simp only [List.length_take]
    omega
  have hdecomp : events = events.take 23 ++ PollEvent.resp 200 t0 :: events.drop 24 := by
    conv_lhs => rw [← List.take_append_drop 23 events]
    rw [drop_cons_of_getq events 23 _ h23]
  have hclean : cleanRun (.str t0) none (events.take 23) = true :=
    cleanRun_of_all_stale t0 _ none
      (take_all_eq_of_getq events 23 _ (fun i hi => hev i (by omega)))
  have hmain := waitLoop_hung_at (.str t0) (events.take 23) (events.drop 24)
    (PollEvent.resp 200 t0) none 0 0 hclean (by rfl)
  rw [hlen] at hmain
  have hwait : Connection.wait_for_restart c (.str t0) events =
      .raised (.unexpectedManagementAPIResponse "Restart hung?") 24 24 := by
    show waitLoop (.str t0) events none 24 0 0 = _
    rw [hdecomp]
    simpa using hmain
  refine ⟨hwait, ?_⟩
  rw [response_202_restart hr h202 hload hkey hex, hwait]

/-- Witness for C4: the hypotheses hold at the concrete 202 restart
response and the all-stale poll trace, and the reconciler hangs after
exactly 24 attempts. -/
theorem claim4_restart_hung_witness :
    (json.loads rRestart.text = some restartData
      ∧ restartData.hasKey "restart" = .ok true
      ∧ extractRestartVal restartData = .ok (.str "T0")
      ∧ (∀ i, i < 24 → staleEvents.get? i = some (.resp 200 "T0")))
    ∧ Connection.wait_for_restart cRestart (.str "T0") staleEvents =
        .raised (.unexpectedManagementAPIResponse "Restart hung?") 24 24
    ∧ Connection._response cRestart staleEvents =
        some (.error (.unexpectedManagementAPIResponse "Restart hung?")) :=
  ⟨⟨by rfl, by rfl, by rfl, by decide⟩,
    claim4_restart_hung cRestart rRestart staleEvents restartData "T0"
      rfl rfl (by rfl) (by rfl) (by rfl) (by decide)⟩

/-- Counterexample to C3: the 24th attempt lies within the 24-attempt
budget and confirms (status 200 with body "T1", differing from the
reported timestamp "T0"), yet the reconciler raises the fatal
"restart hung" error instead of returning normally: the budget check in
the loop body precedes the `done` test. -/
theorem claim3_counterexample :
    lateConfirmEvents.get? 23 = some (PollEvent.resp 200 "T1")
    ∧ ("T1" : String) ≠ "T0"
    ∧ Connection.wait_for_restart cRestart (.str "T0") lateConfirmEvents =
        .raised (.unexpectedManagementAPIResponse "Restart hung?") 24 24 := by
  refine ⟨by decide, by decide, by decide⟩

/-- C3 (amended): if some attempt among the first 23 returns status 200
with a body differing from the reported timestamp, all earlier attempts
having completed without confirming, the reconciler transitions to
Confirmed and returns normally after that attempt (one sleep per attempt);
but when the first 23 attempts complete without confirming, a completed
24th attempt always exhausts the budget and raises the fatal
"restart hung" error — even when that 24th attempt itself confirms. -/
theorem claim3_confirm_within_budget (c : Connection) (last : String)
    (events : List PollEvent) :
    (∀ k t, k < 23 → cleanRun (.str last) none (events.take k) = true →
      events.get? k = some (.resp 200 t) → t ≠ last →
      Connection.wait_for_restart c (.str last) events = .restarted (k + 1) (k + 1))
    ∧ (∀ e, cleanRun (.str last) none (events.take 23) = true →
      events.get? 23 = some e →
      stepCompletes (boundAfter none (events.take 23)) e = true →
      Connection.wait_for_restart c (.str last) events =
        .raised (.unexpectedManagementAPIResponse "Restart hung?") 24 24) := by
  constructor
  · intro k t hk hclean hget hne
    obtain ⟨hlt, -⟩ := List.get?_eq_some.mp hget
    have hlen : (events.take k).length = k := by
      simp only [List.length_take]
      omega
    have hdecomp : events = events.take k ++ PollEvent.resp 200 t :: events.drop (k + 1) := by
      conv_lhs => rw [← List.take_append_drop k events]
      rw [drop_cons_of_getq events k _ hget]
    have hconf : stepConfirms (.str last) (PollEvent.resp 200 t) = true := by
      simp only [stepConfirms, pyNe, Bool.and_eq_true, beq_self_eq_true, bne_iff_ne]
      exact ⟨trivial, hne⟩
    have hmain := waitLoop_confirm_at (.str last) (events.take k) (events.drop (k + 1))
      (PollEvent.resp 200 t) none 24 0 0 hclean
      (by rw [hlen]; omega) hconf
    rw [hlen] at hmain
    show waitLoop (.str last) events none 24 0 0 = _
    rw [hdecomp]
    simpa using hmain
  · intro e hclean hget hcomp
    obtain ⟨hlt, -⟩ := List.get?_eq_some.mp hget
    have hlen : (events.take 23).length = 23 := by
      simp only [List.length_take]
      omega
    have hdecomp : events = events.take 23 ++ e :: events.drop 24 := by
      conv_lhs => rw [← List.take_append_drop 23 events]
      rw [drop_cons_of_getq events 23 _ hget]
    have hmain := waitLoop_hung_at (.str last) (events.take 23) (events.drop 24)
      e none 0 0 hclean hcomp
    rw [hlen] at hmain
    show waitLoop (.str last) events none 24 0 0 = _
    rw [hdecomp]
    simpa using hmain

/-- Witness for C3 (amended): a first-attempt confirmation returns
normally after one poll and one sleep. -/
theorem claim3_confirm_within_budget_witness :
    Connection.wait_for_restart cRestart (.str "T0") [PollEvent.resp 200 "T1"] =
      .restarted 1 1 :=
  (claim3_confirm_within_budget cRestart "T0" [PollEvent.resp 200 "T1"]).1 0 "T1"
    (by omega) (by rfl) (by rfl) (by decide)

/-- Counterexample to C5: a malformed-status-line failure — squarely in
the claimed transient set — on the very first poll attempt is not
absorbed: the handler's own logging line references the still-unbound
local `response` variable, so `NameError` escapes the loop after 1 attempt
and 0 sleeps, instead of consuming one budget unit and one sleep. -/
theorem claim5_counterexample :
    transientLogged PyExc.badStatusLine = true
    ∧ Connection.wait_for_restart cRestart (.str "T0")
        [PollEvent.exc .badStatusLine] = .raised .nameError 1 0 :=
  ⟨rfl, by decide⟩

/-- C5 (amended): during reconciler polling with a clean prefix `pre`,
(1) a `ConnectionError` is absorbed on any attempt, and a `TypeError`,
`BadStatusLine` or `ProtocolError` is absorbed provided some earlier
attempt already bound an HTTP response; an absorbed failure consumes one
unit of the 24-attempt budget and one sleep, and polling continues;
(2) before any response has been bound, a `TypeError`, `BadStatusLine` or
`ProtocolError` makes the handler's logging raise `NameError` out of the
loop, without sleeping;
(3) an exception outside the four absorbed kinds is immediately fatal,
raising out of the loop without sleeping. -/
theorem claim5_transient_absorption (c : Connection) (last : String)
    (pre rest : List PollEvent) (e : PyExc)
    (hclean : cleanRun (.str last) none pre = true) :
    ((e = .connectionError ∨
        (transientLogged e = true ∧ (boundAfter none pre).isSome = true)) →
      pre.length < 23 →
      Connection.wait_for_restart c (.str last) (pre ++ .exc e :: rest) =
        waitLoop (.str last) rest (boundAfter none pre) (24 - (pre.length + 1))
          (pre.length + 1) (pre.length + 1))
    ∧ (transientLogged e = true → boundAfter none pre = none →
      pre.length < 24 →
      Connection.wait_for_restart c (.str last) (pre ++ .exc e :: rest) =
        .raised .nameError (pre.length + 1) pre.length)
    ∧ (e ≠ .connectionError → transientLogged e = false →
      pre.length < 24 →
      Connection.wait_for_restart c (.str last) (pre ++ .exc e :: rest) =
        .raised e (pre.length + 1) pre.length) := by
  refine ⟨?_, ?_, ?_⟩
  · intro habs hk
    have hcomp : stepCompletes (boundAfter none pre) (PollEvent.exc e) = true := by
      rcases habs with hce | ⟨htl, hsome⟩
      · simp [stepCompletes, hce]
      · by_cases hce : e = PyExc.connectionError
        · simp [stepCompletes, hce]
        · simp [stepCompletes, hce, htl, hsome]
    have hmain := waitLoop_absorb_at (.str last) pre rest (PollEvent.exc e)
      none 24 0 0 hclean (by omega) hcomp rfl
    show waitLoop (.str last) (pre ++ PollEvent.exc e :: rest) none 24 0 0 = _
    simpa [updBound] using hmain
  · intro htl hbound hk
    have hce : e ≠ PyExc.connectionError := by
      intro h
      subst h
      simp [transientLogged] at htl
    have herr : pollAttempt (.str last) (boundAfter none pre) (PollEvent.exc e) =
        .error .nameError := by
      simp only [pollAttempt, if_neg hce, if_pos htl, hbound]
    have hmain := waitLoop_escape_at (.str last) pre rest (PollEvent.exc e)
      none 24 0 0 .nameError hclean (by omega) herr
    show waitLoop (.str last) (pre ++ PollEvent.exc e :: rest) none 24 0 0 = _
    simpa using hmain
  · intro hce htl hk
    have herr : pollAttempt (.str last) (boundAfter none pre) (PollEvent.exc e) =
        .error e := by
      simp only [pollAttempt, if_neg hce, htl, Bool.false_eq_true, if_false]
    have hmain := waitLoop_escape_at (.str last) pre rest (PollEvent.exc e)
      none 24 0 0 e hclean (by omega) herr
    show waitLoop (.str last) (pre ++ PollEvent.exc e :: rest) none 24 0 0 = _
    simpa using hmain

/-- Witness for C5 (amended): a first-attempt connection failure is
absorbed, consuming one budget unit and one sleep, and polling continues
with 23 attempts left. -/
theorem claim5_transient_absorption_witness :
    Connection.wait_for_restart cRestart (.str "T0")
        ([] ++ PollEvent.exc .connectionError :: [PollEvent.resp 200 "T1"]) =
      waitLoop (.str "T0") [PollEvent.resp 200 "T1"] none 23 1 1 :=
  (claim5_transient_absorption cRestart "T0" [] [PollEvent.resp 200 "T1"]
    .connectionError rfl).1 (Or.inl rfl) (by decide)

/-- Counterexample to C2: a 202 response whose body parses to the number
5 — a body with no restart descriptor — is not returned immediately: the
membership test `"restart" in data` raises `TypeError` on a non-container
value, so the classifier errors instead of returning the handle. -/
theorem claim2_counterexample :
    json.loads rNum202.text = some (JValue.num 5)
    ∧ Connection._response cNum202 [] = some (.error .typeError)
    ∧ Connection._response cNum202 [] ≠ some (.ok rNum202) := by
  refine ⟨by rfl, by rfl, by decide⟩

/-- C2 (amended): for a 202 response the classifier parses the body as
structured data; when a restart descriptor is present, the extracted
last-startup timestamp is handed to the Restart Reconciler synchronously
and the handle is returned exactly when the reconciler confirms (a
reconciler error propagates); when the parsed body is a container without
a restart descriptor the handle is returned immediately and independently
of the polling environment (the Reconciler is not invoked); but when the
parsed body is a non-container value, the membership test itself raises
`TypeError`. -/
theorem claim2_restart_dispatch (c : Connection) (r : Response)
    (events : List PollEvent) (hr : c.response = some r)
    (h202 : r.status_code = 202) :
    (∀ data v, json.loads r.text = some data →
      data.hasKey "restart" = .ok true → extractRestartVal data = .ok v →
      Connection._response c events =
        (match c.wait_for_restart v events with
         | .restarted _ _ => some (.ok r)
         | .raised e _ _ => some (.error e)
         | .outOfEvents => none))
    ∧ (∀ data, json.loads r.text = some data →
      data.hasKey "restart" = .ok false →
      ∀ events2, Connection._response c events2 = some (.ok r))
    ∧ (∀ data, json.loads r.text = some data →
      data.hasKey "restart" = .error .typeError →
      Connection._response c events = some (.error .typeError)) := by
  refine ⟨?_, ?_, ?_⟩
  · intro data v hload hkey hex
    exact response_202_restart hr h202 hload hkey hex
  · intro data hload hkey events2
    exact response_202_norestart hr h202 hload hkey
  · intro data hload hkey
    exact response_202_haskey_error hr h202 hload hkey

/-- Witness for C2 (amended): with the concrete restart descriptor and a
confirming first poll, the reconciler runs synchronously and the very
handle is then returned. -/
theorem claim2_restart_dispatch_witness :
    Connection._response cRestart [PollEvent.resp 200 "T1"] = some (.ok rRestart) := by
  rw [(claim2_restart_dispatch cRestart rRestart [PollEvent.resp 200 "T1"] rfl rfl).1
    restartData (.str "T0") (by rfl) (by rfl) (by rfl)]
  rfl

/-- Counterexample to C6: status 202 lies in [200,300), yet for a 202
response carrying a restart descriptor the classifier does invoke the
Restart Reconciler and — when every poll reports the old timestamp —
raises the restart-hung error instead of returning the handle
unmodified. -/
theorem claim6_counterexample :
    (200 ≤ rRestart.status_code ∧ rRestart.status_code < 300)
    ∧ Connection._response cRestart staleEvents =
        some (.error (.unexpectedManagementAPIResponse "Restart hung?"))
    ∧ Connection._response cRestart staleEvents ≠ some (.ok rRestart) := by
  refine ⟨by decide, by decide, by decide⟩

/-- C6 (amended): for every response with a status in [200,300) other
than 202, the classifier returns the very handle unmodified, and its
result does not depend on the polling environment — the Restart
Reconciler is never invoked; at status 202 the Reconciler may run and the
handle need not be returned. -/
theorem claim6_success_passthrough (c : Connection) (r : Response)
    (events events2 : List PollEvent) (hr : c.response = some r)
    (_h200 : 200 ≤ r.status_code) (h3 : r.status_code < 300)
    (h202 : r.status_code ≠ 202) :
    Connection._response c events = some (.ok r)
    ∧ Connection._response c events = Connection._response c events2 := by
  have ha := @response_ok_of_ne202 c r events hr (statusGate_lt h3) h202
  have hb := @response_ok_of_ne202 c r events2 hr (statusGate_lt h3) h202
  exact ⟨ha, by rw [ha, hb]⟩

/-- Witness for C6 (amended) at a concrete 204 response. -/
theorem claim6_success_passthrough_witness :
    Connection._response c204 [] = some (.ok r204) :=
  (claim6_success_passthrough c204 r204 [] [PollEvent.exc .connectionError]
    rfl (by decide) (by decide) (by decide)).1

/-- Counterexample to C8: issuing a GET through a fresh endpoint stores
the just-received response handle on the endpoint object itself (the
`self.response` assignment), so per-request data is kept on the shared
Endpoint and the endpoint value after the request differs from the one
before it. -/
theorem claim8_counterexample :
    (Connection.get cBase "u" "application/json" r204 []).2.1.response = some r204
    ∧ cBase.response = none
    ∧ (Connection.get cBase "u" "application/json" r204 []).2.1 ≠ cBase := by
  refine ⟨rfl, rfl, by decide⟩

/-- C8 (amended): no dispatcher operation (probe/read/create-or-invoke/
replace/remove) changes any configuration field of the Endpoint it runs
through — host, credential, scheme, ports, API root and version are all
preserved — but every operation overwrites the endpoint's `response`
attribute with the just-received handle, so the shared object does carry
per-request state and concurrent callers are not isolated. -/
theorem claim8_endpoint_state (c : Connection) (uri accept content_type : String)
    (payload : Option JValue) (etag : Option String)
    (net : Response) (events : List PollEvent) :
    ((Connection.head c uri accept net events).2.1.host = c.host
      ∧ (Connection.head c uri accept net events).2.1.auth = c.auth
      ∧ (Connection.head c uri accept net events).2.1.protocol = c.protocol
      ∧ (Connection.head c uri accept net events).2.1.port = c.port
      ∧ (Connection.head c uri accept net events).2.1.management_port = c.management_port
      ∧ (Connection.head c uri accept net events).2.1.root = c.root
      ∧ (Connection.head c uri accept net events).2.1.version = c.version
      ∧ (Connection.head c uri accept net events).2.1.response = some net)
    ∧ ((Connection.get c uri accept net events).2.1.host = c.host
      ∧ (Connection.get c uri accept net events).2.1.auth = c.auth
      ∧ (Connection.get c uri accept net events).2.1.protocol = c.protocol
      ∧ (Connection.get c uri accept net events).2.1.port = c.port
      ∧ (Connection.get c uri accept net events).2.1.management_port = c.management_port
      ∧ (Connection.get c uri accept net events).2.1.root = c.root
      ∧ (Connection.get c uri accept net events).2.1.version = c.version
      ∧ (Connection.get c uri accept net events).2.1.response = some net)
    ∧ ((Connection.post c uri payload etag content_type accept net events).2.1.host = c.host
      ∧ (Connection.post c uri payload etag content_type accept net events).2.1.auth = c.auth
      ∧ (Connection.post c uri payload etag content_type accept net events).2.1.protocol = c.protocol
      ∧ (Connection.post c uri payload etag content_type accept net events).2.1.port = c.port
      ∧ (Connection.post c uri payload etag content_type accept net events).2.1.management_port = c.management_port
      ∧ (Connection.post c uri payload etag content_type accept net events).2.1.root = c.root
      ∧ (Connection.post c uri payload etag content_type accept net events).2.1.version = c.version
      ∧ (Connection.post c uri payload etag content_type accept net events).2.1.response = some net)
    ∧ ((Connection.put c uri payload etag content_type accept net events).2.1.host = c.host
      ∧ (Connection.put c uri payload etag content_type accept net events).2.1.auth = c.auth
      ∧ (Connection.put c uri payload etag content_type accept net events).2.1.protocol = c.protocol
      ∧ (Connection.put c uri payload etag content_type accept net events).2.1.port = c.port
      ∧ (Connection.put c uri payload etag content_type accept net events).2.1.management_port = c.management_port
      ∧ (Connection.put c uri payload etag content_type accept net events).2.1.root = c.root
      ∧ (Connection.put c uri payload etag content_type accept net events).2.1.version = c.version
      ∧ (Connection.put c uri payload etag content_type accept net events).2.1.response = some net)
    ∧ ((Connection.delete c uri payload etag content_type accept net events).2.1.host = c.host
      ∧ (Connection.delete c uri payload etag content_type accept net events).2.1.auth = c.auth
      ∧ (Connection.delete c uri payload etag content_type accept net events).2.1.protocol = c.protocol
      ∧ (Connection.delete c uri payload etag content_type accept net events).2.1.port = c.port
      ∧ (Connection.delete c uri payload etag content_type accept net events).2.1.management_port = c.management_port
      ∧ (Connection.delete c uri payload etag content_type accept net events).2.1.root = c.root
      ∧ (Connection.delete c uri payload etag content_type accept net events).2.1.version = c.version
      ∧ (Connection.delete c uri payload etag content_type accept net events).2.1.response = some net) := by
  refine ⟨?_, ?_, ?_, ?_, ?_⟩ <;>
    exact ⟨rfl, rfl, rfl, rfl, rfl, rfl, rfl, rfl⟩

/-- Counterexample to C9: a PUT carrying a payload under the non-default
content type "text/plain" still serializes the payload as structured data
(the `json=payload` call) instead of sending it as a raw body. -/
theorem claim9_counterexample :
    (putRequest "u" (some (JValue.str "x")) none "text/plain" "application/json").body =
      BodyKind.jsonBody (JValue.str "x")
    ∧ ("text/plain" : String) ≠ "application/json"
    ∧ BodyKind.jsonBody (JValue.str "x") ≠ BodyKind.rawBody (JValue.str "x") := by
  refine ⟨rfl, by decide, fun h => by cases h⟩

/-- C9 (amended): only POST negotiates the payload serialization — its
payload goes out as structured data exactly when the content type is the
structured default "application/json", and as a raw body otherwise —
while PUT and DELETE always serialize a present payload as structured
data regardless of the negotiated content type; an absent payload always
yields an empty body. -/
theorem claim9_payload_serialization (uri content_type accept : String)
    (p : JValue) (etag : Option String) :
    ((postRequest uri (some p) etag content_type accept).body =
      if content_type = "application/json" then BodyKind.jsonBody p else BodyKind.rawBody p)
    ∧ (putRequest uri (some p) etag content_type accept).body = BodyKind.jsonBody p
    ∧ (deleteRequest uri (some p) etag content_type accept).body = BodyKind.jsonBody p
    ∧ (postRequest uri none etag content_type accept).body = BodyKind.empty
    ∧ (putRequest uri none etag content_type accept).body = BodyKind.empty
    ∧ (deleteRequest uri none etag content_type accept).body = BodyKind.empty :=
  ⟨rfl, rfl, rfl, rfl, rfl, rfl⟩

theorem statusGate_error_taxonomy (r : Response) (e : PyExc)
    (h : statusGate r = .error e) : taxonomyMemberSpec e = true := by
  simp only [statusGate] at h
  split at h
  · cases h
  · split at h
    · cases h
    · split at h
      · injection h with h2
        subst h2
        rfl
      · injection h with h2
        subst h2
        rfl

theorem hasKey_error_typeError (data : JValue) (k : String) (e : PyExc)
    (h : data.hasKey k = .error e) : e = .typeError := by
  cases data with
  | null =>
    simp only [JValue.hasKey, Except.error.injEq] at h
    exact h.symm
  | bool b =>
    simp only [JValue.hasKey, Except.error.injEq] at h
    exact h.symm
  | num n =>
    simp only [JValue.hasKey, Except.error.injEq] at h
    exact h.symm
  | str s => simp [JValue.hasKey] at h
  | arr xs => simp [JValue.hasKey] at h
  | obj kvs => simp [JValue.hasKey] at h

theorem getKey_error_parseFamily (d : JValue) (k : String) (e : PyExc)
    (h : d.getKey k = .error e) : parseFamily e = true := by
  cases d with
  | obj kvs =>
    simp only [JValue.getKey] at h
    cases hf : kvs.reverse.find? (fun kv => kv.1 == k) with
    | some kv => simp [hf] at h
    | none =>
      simp only [hf, Except.error.injEq] at h
      subst h
      rfl
  | null =>
    simp only [JValue.getKey, Except.error.injEq] at h
    subst h
    rfl
  | bool b =>
    simp only [JValue.getKey, Except.error.injEq] at h
    subst h
    rfl
  | num n =>
    simp only [JValue.getKey, Except.error.injEq] at h
    subst h
    rfl
  | str s =>
    simp only [JValue.getKey, Except.error.injEq] at h
    subst h
    rfl
  | arr xs =>
    simp only [JValue.getKey, Except.error.injEq] at h
    subst h
    rfl

theorem getIdx_error_parseFamily (d : JValue) (i : Nat) (e : PyExc)
    (h : d.getIdx i = .error e) : parseFamily e = true := by
  cases d with
  | arr xs =>
    simp only [JValue.getIdx] at h
    split at h
    · cases h
    · injection h with h4
      subst h4
      rfl
  | str s =>
    simp only [JValue.getIdx] at h
    split at h
    · cases h
    · injection h with h4
      subst h4
      rfl
  | obj kvs =>
    simp only [JValue.getIdx, Except.error.injEq] at h
    subst h
    rfl
  | null =>
    simp only [JValue.getIdx, Except.error.injEq] at h
    subst h
    rfl
  | bool b =>
    simp only [JValue.getIdx, Except.error.injEq] at h
    subst h
    rfl
  | num n =>
    simp only [JValue.getIdx, Except.error.injEq] at h
    subst h
    rfl

theorem extractRestartVal_error_parseFamily (data : JValue) (e : PyExc)
    (h : extractRestartVal data = .error e) : parseFamily e = true := by
  unfold extractRestartVal at h
  cases h1 : data.getKey "restart" with
  | error e1 =>
    simp only [h1] at h
    injection h with h4
    subst h4
    exact getKey_error_parseFamily _ _ _ h1
  | ok r =>
    simp only [h1] at h
    cases h2 : r.getKey "last-startup" with
    | error e2 =>
      simp only [h2] at h
      injection h with h4
      subst h4
      exact getKey_error_parseFamily _ _ _ h2
    | ok ls =>
      simp only [h2] at h
      cases h3 : ls.getIdx 0 with
      | error e3 =>
        simp only [h3] at h
        injection h with h4
        subst h4
        exact getIdx_error_parseFamily _ _ _ h3
      | ok first =>
        simp only [h3] at h
        exact getKey_error_parseFamily _ _ _ h

/-- Counterexample to C10: a 202 response whose body is not valid
structured data makes the classifier escape with the uncaught JSON parse
error — an error outside the documented taxonomy — rather than a Response
Handle or a taxonomy member carrying body text. -/
theorem claim10_counterexample :
    json.loads rBadJson.text = none
    ∧ Connection._response cBadJson [] = some (.error .jsonDecodeError)
    ∧ taxonomyMemberSpec .jsonDecodeError = false := by
  refine ⟨by rfl, by rfl, rfl⟩

/-- C10 (amended): every classified dispatch outcome is either the very
response handle or an error that is (a) a documented taxonomy member —
authentication, unexpected-response (including "restart hung"), or a
named transport error — or (b) a 202 body-parsing/extraction error
(invalid JSON, `KeyError`, `IndexError`, `TypeError`), or (c) the polling
handler's `NameError`, or (d) an exception raised verbatim by the
transport on some poll attempt.  Case (b) shows that a 202 response with
an invalid structured-data body escapes classification with a parse
error, outside the taxonomy. -/
theorem claim10_error_taxonomy (c : Connection) (r : Response)
    (events : List PollEvent) (x : Except PyExc Response)
    (hr : c.response = some r)
    (hx : Connection._response c events = some x) :
    x = .ok r ∨ ∃ e, x = .error e ∧
      (taxonomyMemberSpec e = true ∨ parseFamily e = true ∨ e = .nameError ∨
        ∃ i, events.get? i = some (.exc e)) := by
  simp only [Connection._response, hr] at hx
  cases hg : statusGate r with
  | error e =>
    simp only [hg] at hx
    injection hx with hx2
    subst hx2
    exact Or.inr ⟨e, rfl, Or.inl (statusGate_error_taxonomy r e hg)⟩
  | ok u =>
    simp only [hg] at hx
    by_cases h202 : r.status_code = 202
    · rw [if_pos h202] at hx
      cases hl : json.loads r.text with
      | none =>
        simp only [hl] at hx
        injection hx with hx2
        subst hx2
        exact Or.inr ⟨_, rfl, Or.inr (Or.inl rfl)⟩
      | some data =>
        simp only [hl] at hx
        cases hk : data.hasKey "restart" with
        | error e =>
          simp only [hk] at hx
          injection hx with hx2
          subst hx2
          have he := hasKey_error_typeError data _ e hk
          subst he
          exact Or.inr ⟨_, rfl, Or.inr (Or.inl rfl)⟩
        | ok b =>
          cases b with
          | false =>
            simp only [hk] at hx
            injection hx with hx2
            subst hx2
            exact Or.inl rfl
          | true =>
            simp only [hk] at hx
            cases hex : extractRestartVal data with
            | error e =>
              simp only [hex] at hx
              injection hx with hx2
              subst hx2
              exact Or.inr ⟨e, rfl,
                Or.inr (Or.inl (extractRestartVal_error_parseFamily data e hex))⟩
            | ok v =>
              simp only [hex] at hx
              cases hw : c.wait_for_restart v events with
              | restarted p s =>
                simp only [hw] at hx
                injection hx with hx2
                subst hx2
                exact Or.inl rfl
              | outOfEvents => simp [hw] at hx
              | raised e p s =>
                simp only [hw] at hx
                injection hx with hx2
                subst hx2
                rcases waitLoop_raised_classify v events none 24 0 0 e p s hw with
                  h1 | h2 | h3
                · subst h1
                  exact Or.inr ⟨_, rfl, Or.inl rfl⟩
                · subst h2
                  exact Or.inr ⟨_, rfl, Or.inr (Or.inr (Or.inl rfl))⟩
                · exact Or.inr ⟨e, rfl, Or.inr (Or.inr (Or.inr h3))⟩
    · rw [if_neg h202] at hx
      injection hx with hx2
      subst hx2
      exact Or.inl rfl

/-- Witness for C10 (amended) at a concrete 401 response: the classified
error is a taxonomy member. -/
theorem claim10_error_taxonomy_witness :
    (Except.error (PyExc.unauthorizedAPIRequest "denied") : Except PyExc Response) =
        .ok r401
    ∨ ∃ e, (Except.error (PyExc.unauthorizedAPIRequest "denied") : Except PyExc Response) =
          .error e
        ∧ (taxonomyMemberSpec e = true ∨ parseFamily e = true ∨ e = .nameError ∨
          ∃ i, ([] : List PollEvent).get? i = some (.exc e)) :=
  claim10_error_taxonomy c401 r401 [] _ rfl (by rfl)
